import Mathlib

/-!
Shallow embedding of the tidycal-substack-sync service, modelled from
`src/unnamed/part_000` (the final variant: processed-set tracking plus the
GDPR cutoff filter) and, for the fallback submitter, the second variant in
`src/index.js`.  External I/O (HTTP fetch, file read/write, the browser
page) is passed in explicitly as data describing each call's outcome, so
every function below is the pure core of the corresponding JS function.
Timestamps are integers (epoch milliseconds); a JS `Set` of id strings is an
insertion-ordered duplicate-free `List String`.
-/

namespace TidycalSync

/-- The contact carried by a booking (`booking.contact` in the source). -/
structure Contact where
  email : String
  name : String
deriving DecidableEq, Repr

/-- A TidyCal booking record as consumed by the sync code: an id (a number
in the API; the code always applies `.toString()` before using it), the
upstream `created_at` timestamp, and the contact. -/
structure Booking where
  id : Nat
  created_at : Int
  contact : Contact
deriving DecidableEq, Repr

/-- `booking.id.toString()` — the canonical string form of a booking id used
both by the eligibility filter and by `saveProcessedBooking`. -/
def Booking.idString (b : Booking) : String := toString b.id

/-- JS `Set.prototype.add`: append the element at the end if absent,
otherwise leave the list unchanged (insertion-ordered set). -/
def SetAdd (s : List String) (a : String) : List String :=
  if a ∈ s then s else s ++ [a]

/-- JS `new Set(arr)`: collect the elements of `arr` left to right, keeping
the first occurrence of each. -/
def setFromList (l : List String) : List String :=
  l.foldl SetAdd []

/-- The durable `processed_bookings.json` file as the loader can find it:
missing (readFile throws ENOENT), present but unparseable as a JSON string
array (JSON.parse or the Set constructor throws), or a parsed string
array. -/
inductive StoreFile where
  | missing
  | corrupt (raw : String)
  | valid (bookingIds : List String)
deriving DecidableEq, Repr

/-- The mutable module state of `src/unnamed/part_000`: `lastCheckTime`,
the in-memory `processedBookingIds` set, and the durable store file that
`saveProcessedBooking` rewrites. -/
structure SyncState where
  lastCheckTime : Int
  processedBookingIds : List String
  storeFile : StoreFile
deriving DecidableEq, Repr

/-- `loadProcessedBookings` (part_000 lines 25-36): read and parse the
store file inside a try/catch; any failure (missing file or corrupt
contents) falls into the catch arm and yields the empty set. -/
def loadProcessedBookings : StoreFile → List String
  | .missing => []
  | .corrupt _ => []
  | .valid bookingIds => setFromList bookingIds

/-- `saveProcessedBooking` (part_000 lines 39-47): add `bookingId.toString()`
to the in-memory set, then rewrite the whole set to the store file;
`writeOk` tells whether `fs.writeFile` succeeded.  A write failure is caught
and only logged, so the in-memory set keeps the id either way and the file
keeps its previous contents. -/
def saveProcessedBooking (st : SyncState) (bookingId : Nat) (writeOk : Bool) : SyncState :=
  let newIds := SetAdd st.processedBookingIds (toString bookingId)
  if writeOk then
    { st with processedBookingIds := newIds, storeFile := .valid newIds }
  else
    { st with processedBookingIds := newIds }

/-- `getNewBookings` (part_000 lines 63-79): on a successful HTTP call
return `response.data.data || []` (so a missing/null `data` field becomes
the empty list); any thrown error is caught, logged, and turned into the
empty list. -/
def getNewBookings (fetchResult : Except String (Option (List Booking))) : List Booking :=
  match fetchResult with
  | .ok (some bookings) => bookings
  | .ok none => []
  | .error _ => []

/-- The predicate of the `gdprCompliantBookings` filter callback (part_000
lines 182-198): keep a booking iff `new Date(created_at) >
AUTOMATION_START_TIME` and its id string is not already processed. -/
def isEligible (processed : List String) (cutoff : Int) (b : Booking) : Bool :=
  let isNewBooking := decide (cutoff < b.created_at)
  let notAlreadyProcessed := !(decide (b.idString ∈ processed))
  isNewBooking && notAlreadyProcessed

/-- `allBookings.filter(...)` producing `gdprCompliantBookings`
(part_000 lines 182-198). -/
def gdprCompliantBookings (allBookings : List Booking) (processed : List String)
    (cutoff : Int) : List Booking :=
  allBookings.filter (isEligible processed cutoff)

/-- The `for (const booking of gdprCompliantBookings)` loop (part_000 lines
208-230): call the submitter on every booking in order; on success record
the id via `saveProcessedBooking`, on failure leave state untouched and move
on.  `submit` gives each booking's submission outcome, `writeOk` each store
write's outcome.  Returns the final state and the list of bookings the
submitter was invoked on. -/
def runLoop (submit : Booking → Bool) (writeOk : String → Bool) :
    List Booking → SyncState → SyncState × List Booking
  | [], st => (st, [])
  | booking :: rest, st =>
      let success := submit booking
      let st1 := if success then saveProcessedBooking st booking.id (writeOk booking.idString)
        else st
      let res := runLoop submit writeOk rest st1
      (res.1, booking :: res.2)

/-- `syncBookingsToSubstack` (part_000 lines 171-235): fetch, return early
on an empty fetch, filter, return early on an empty eligible set, run the
submit/record loop, and finally set `lastCheckTime = new Date()` (`now`).
Returns the new state and the bookings passed to the submitter. -/
def runCycle (fetchResult : Except String (Option (List Booking)))
    (submit : Booking → Bool) (writeOk : String → Bool)
    (now : Int) (cutoff : Int) (st : SyncState) : SyncState × List Booking :=
  let allBookings := getNewBookings fetchResult
  if allBookings.length = 0 then (st, [])
  else
    let eligible := gdprCompliantBookings allBookings st.processedBookingIds cutoff
    if eligible.length = 0 then (st, [])
    else
      let res := runLoop submit writeOk eligible st
      ({ res.1 with lastCheckTime := now }, res.2)

/-- The external inputs of one timer tick: the fetch outcome, the
submitter's per-booking outcome, the store write outcomes, and the wall
clock at cycle end. -/
structure CycleInput where
  fetchResult : Except String (Option (List Booking))
  submit : Booking → Bool
  writeOk : String → Bool
  now : Int

/-- Repeated timer ticks: run each cycle in turn, threading the state and
collecting every booking handed to the submitter. -/
def runCycles (cutoff : Int) : List CycleInput → SyncState → SyncState × List Booking
  | [], st => (st, [])
  | c :: rest, st =>
      let r1 := runCycle c.fetchResult c.submit c.writeOk c.now cutoff st
      let r2 := runCycles cutoff rest r1.1
      (r2.1, r1.2 ++ r2.2)

/-- `subscribeToSubstack` from the fallback variant (`src/index.js` lines
203-246): POST to `/api/v1/subscribe`; if that resolves, succeed iff the
status is 200 or 201; if it throws, try `/api/v1/free` once the same way;
if that also throws, log and return false.  Each argument is the outcome of
the corresponding axios call (`.ok status` = resolved, `.error` = threw).
The second component counts the external submission attempts made. -/
def subscribeToSubstackFallback (primaryResult fallbackResult : Except String Nat) :
    Bool × Nat :=
  match primaryResult with
  | .ok status => (status == 200 || status == 201, 1)
  | .error _ =>
      match fallbackResult with
      | .ok status => (status == 200 || status == 201, 2)
      | .error _ => (false, 2)

/-- What one browser-automation run of `subscribeToSubstack` (part_000
lines 82-168) can come to: some step threw (launch, navigation, selector
wait, timeout — caught at line 159), the submit button was not found
(line 154), or the form was submitted and the final page content and URL
were read back. -/
inductive BrowserRun where
  | thrown (msg : String)
  | noSubmitButton
  | submitted (pageContent : String) (url : String)
deriving DecidableEq, Repr

/-- `subscribeToSubstack`, browser variant (part_000 lines 82-168): false
when anything threw or no submit button was found; once the button is
clicked the function returns true whether or not a success indicator is
seen on the page (lines 146-153 return true in both branches — the
indicator check only changes the log line). -/
def subscribeToSubstack (run : BrowserRun) : Bool :=
  match run with
  | .thrown _ => false
  | .noSubmitButton => false
  | .submitted _ _ => true

/-! ### Concrete fixtures used to instantiate the theorems -/

/-- A concrete contact. -/
def contactA : Contact := { email := "a@b.com", name := "Alice" }

/-- A second concrete contact. -/
def contactC : Contact := { email := "c@d.com", name := "Carol" }

/-- A booking created after the cutoff 5 used in the instances below. -/
def bookingA : Booking := { id := 1, created_at := 10, contact := contactA }

/-- A second post-cutoff booking with a distinct id. -/
def bookingC : Booking := { id := 2, created_at := 20, contact := contactC }

/-- The startup state: fresh clock, empty processed set, no store file. -/
def initState : SyncState :=
  { lastCheckTime := 0, processedBookingIds := [], storeFile := .missing }

/-- A fetch that returns both concrete bookings. -/
def fetchBoth : Except String (Option (List Booking)) := .ok (some [bookingA, bookingC])

/-- A submitter outcome: succeeds exactly on booking id 1. -/
def submitOnlyA : Booking → Bool := fun b => b.id == 1

/-- Store writes always succeed. -/
def allWritesOk : String → Bool := fun _ => true

/-- One concrete timer tick fetching only `bookingA`, with every submission
and write succeeding, ending at clock 99. -/
def tickA : CycleInput :=
  { fetchResult := .ok (some [bookingA]), submit := fun _ => true,
    writeOk := fun _ => true, now := 99 }

/-! ### Helper lemmas about the embedded operations -/

theorem mem_SetAdd {s : List String} {a x : String} :
    x ∈ SetAdd s a ↔ x ∈ s ∨ x = a := by
  unfold SetAdd
  split
  · rename_i h
    constructor
    · exact Or.inl
    · rintro (hx | rfl)
      · exact hx
      · exact h
  · simp

theorem SetAdd_nodup {s : List String} (h : s.Nodup) (a : String) :
    (SetAdd s a).Nodup := by
  unfold SetAdd
  split
  · exact h
  · rename_i hna
    simp [List.nodup_append]
    exact ⟨h, hna⟩

theorem foldl_SetAdd_of_nodup (l acc : List String) (h : (acc ++ l).Nodup) :
    l.foldl SetAdd acc = acc ++ l := by
  induction l generalizing acc with
  | nil => simp
  | cons a rest ih =>
      have hrw : acc ++ a :: rest = (acc ++ [a]) ++ rest := by simp
      rw [hrw] at h
      have hna : a ∉ acc := by
        have h2 := h.sublist (List.sublist_append_left (acc ++ [a]) rest)
        simp [List.nodup_append] at h2
        exact h2.2
      have hstep : SetAdd acc a = acc ++ [a] := by
        unfold SetAdd
        exact if_neg hna
      rw [List.foldl_cons, hstep, ih (acc ++ [a]) h]
      simp

theorem setFromList_of_nodup (l : List String) (h : l.Nodup) :
    setFromList l = l := by
  unfold setFromList
  simpa using foldl_SetAdd_of_nodup l [] (by simpa using h)

theorem saveProcessedBooking_processedBookingIds (st : SyncState) (bookingId : Nat)
    (writeOk : Bool) :
    (saveProcessedBooking st bookingId writeOk).processedBookingIds
      = SetAdd st.processedBookingIds (toString bookingId) := by
  cases writeOk <;> rfl

theorem saveProcessedBooking_lastCheckTime (st : SyncState) (bookingId : Nat)
    (writeOk : Bool) :
    (saveProcessedBooking st bookingId writeOk).lastCheckTime = st.lastCheckTime := by
  cases writeOk <;> rfl

theorem runLoop_attempts (submit : Booking → Bool) (writeOk : String → Bool)
    (l : List Booking) (st : SyncState) :
    (runLoop submit writeOk l st).2 = l := by
  induction l generalizing st with
  | nil => rfl
  | cons b rest ih => simp [runLoop, ih]

theorem mem_runLoop_processed (submit : Booking → Bool) (writeOk : String → Bool)
    (l : List Booking) (st : SyncState) (a : String) :
    a ∈ (runLoop submit writeOk l st).1.processedBookingIds ↔
      a ∈ st.processedBookingIds ∨ ∃ b, b ∈ l ∧ submit b = true ∧ a = b.idString := by
  induction l generalizing st with
  | nil => simp [runLoop]
  | cons b rest ih =>
      cases hsb : submit b with
      | true =>
          simp only [runLoop, hsb, if_true, ih, saveProcessedBooking_processedBookingIds,
            mem_SetAdd, List.mem_cons, Booking.idString]
          constructor
          · rintro ((hx | rfl) | ⟨b', hb', hs', rfl⟩)
            · exact Or.inl hx
            · exact Or.inr ⟨b, Or.inl rfl, hsb, rfl⟩
            · exact Or.inr ⟨b', Or.inr hb', hs', rfl⟩
          · rintro (hx | ⟨b', (rfl | hb'), hs', rfl⟩)
            · exact Or.inl (Or.inl hx)
            · exact Or.inl (Or.inr rfl)
            · exact Or.inr ⟨b', hb', hs', rfl⟩
      | false =>
          simp only [runLoop, hsb, if_false, ih, List.mem_cons]
          constructor
          · rintro (hx | ⟨b', hb', hs', rfl⟩)
            · exact Or.inl hx
            · exact Or.inr ⟨b', Or.inr hb', hs', rfl⟩
          · rintro (hx | ⟨b', (rfl | hb'), hs', rfl⟩)
            · exact Or.inl hx
            · rw [hsb] at hs'; cases hs'
            · exact Or.inr ⟨b', hb', hs', rfl⟩

theorem runLoop_lastCheckTime (submit : Booking → Bool) (writeOk : String → Bool)
    (l : List Booking) (st : SyncState) :
    (runLoop submit writeOk l st).1.lastCheckTime = st.lastCheckTime := by
  induction l generalizing st with
  | nil => rfl
  | cons b rest ih =>
      cases hsb : submit b with
      | true => simp [runLoop, hsb, ih, saveProcessedBooking_lastCheckTime]
      | false => simp [runLoop, hsb, ih]

theorem mem_gdprCompliantBookings (allBookings : List Booking) (processed : List String)
    (cutoff : Int) (b : Booking) :
    b ∈ gdprCompliantBookings allBookings processed cutoff ↔
      b ∈ allBookings ∧ cutoff < b.created_at ∧ b.idString ∉ processed := by
  simp [gdprCompliantBookings, List.mem_filter, isEligible, and_assoc]

theorem runCycle_attempts (fetchResult : Except String (Option (List Booking)))
    (submit : Booking → Bool) (writeOk : String → Bool) (now cutoff : Int)
    (st : SyncState) :
    (runCycle fetchResult submit writeOk now cutoff st).2
      = gdprCompliantBookings (getNewBookings fetchResult) st.processedBookingIds cutoff := by
  rw [runCycle]
  dsimp only
  split
  · rename_i h
    rw [List.length_eq_zero] at h
    simp [h, gdprCompliantBookings]
  · split
    · rename_i h
      rw [List.length_eq_zero] at h
      simp [h]
    · simp [runLoop_attempts]

theorem mem_runCycle_processed (fetchResult : Except String (Option (List Booking)))
    (submit : Booking → Bool) (writeOk : String → Bool) (now cutoff : Int)
    (st : SyncState) (a : String) :
    a ∈ (runCycle fetchResult submit writeOk now cutoff st).1.processedBookingIds ↔
      a ∈ st.processedBookingIds ∨
        ∃ b, b ∈ gdprCompliantBookings (getNewBookings fetchResult)
              st.processedBookingIds cutoff ∧ submit b = true ∧ a = b.idString := by
  rw [runCycle]
  dsimp only
  split
  · rename_i h
    rw [List.length_eq_zero] at h
    simp [h, gdprCompliantBookings]
  · split
    · rename_i h
      rw [List.length_eq_zero] at h
      simp [h]
    · simpa using mem_runLoop_processed submit writeOk _ st a

theorem runCycle_processed_mono (fetchResult : Except String (Option (List Booking)))
    (submit : Booking → Bool) (writeOk : String → Bool) (now cutoff : Int)
    (st : SyncState) (a : String) (ha : a ∈ st.processedBookingIds) :
    a ∈ (runCycle fetchResult submit writeOk now cutoff st).1.processedBookingIds :=
  (mem_runCycle_processed fetchResult submit writeOk now cutoff st a).mpr (Or.inl ha)

theorem processed_never_attempted (cutoff : Int) (inputs : List CycleInput)
    (st : SyncState) (b : Booking) (hb : b.idString ∈ st.processedBookingIds) :
    b ∉ (runCycles cutoff inputs st).2 := by
  induction inputs generalizing st with
  | nil => simp [runCycles]
  | cons c rest ih =>
      simp only [runCycles, List.mem_append]
      push_neg
      refine ⟨?_, ?_⟩
      · rw [runCycle_attempts, mem_gdprCompliantBookings]
        rintro ⟨-, -, hnot⟩
        exact hnot hb
      · exact ih _ (runCycle_processed_mono c.fetchResult c.submit c.writeOk c.now cutoff st _ hb)

theorem nodup_idString_inj (allBookings : List Booking)
    (h : (allBookings.map Booking.idString).Nodup) (b b' : Booking)
    (hb : b ∈ allBookings) (hb' : b' ∈ allBookings)
    (heq : b.idString = b'.idString) : b = b' :=
  List.inj_on_of_nodup_map h hb hb' heq

/-! ### Claim theorems -/

/-- C1: the eligibility filter is a pure function of its three arguments
(purity and determinism are inherent in it being a Lean function of the
bookings, the processed set and the cutoff); a booking appears in its
output iff it appears in the input, `created_at > cutoff`, and its id
string is not in the processed set; and the output is a sublist of the
input, so the input order is preserved (stable filter). -/
theorem eligibility_filter_correct (bookings : List Booking) (processed : List String)
    (cutoff : Int) :
    (∀ b : Booking, b ∈ gdprCompliantBookings bookings processed cutoff ↔
        b ∈ bookings ∧ cutoff < b.created_at ∧ b.idString ∉ processed)
    ∧ (gdprCompliantBookings bookings processed cutoff).Sublist bookings :=
  ⟨fun b => mem_gdprCompliantBookings bookings processed cutoff b,
   List.filter_sublist bookings⟩

/-- C2: across any number of cycles, every booking handed to the submitter
satisfies `cutoff < created_at` strictly, so a booking with
`created_at ≤ cutoff` — including one created exactly at the cutoff — is
never submitted, for any input ordering; and the bookings a cycle submits
do not depend on the local clock `now`, only on the upstream `created_at`
fields, the processed set and the cutoff. -/
theorem cutoff_bookings_never_submitted (cutoff : Int) (inputs : List CycleInput)
    (st : SyncState) :
    (∀ b ∈ (runCycles cutoff inputs st).2, cutoff < b.created_at)
    ∧ (∀ (fetchResult : Except String (Option (List Booking)))
        (submit : Booking → Bool) (writeOk : String → Bool) (now1 now2 : Int)
        (s : SyncState),
        (runCycle fetchResult submit writeOk now1 cutoff s).2
          = (runCycle fetchResult submit writeOk now2 cutoff s).2) := by
  constructor
  · induction inputs generalizing st with
    | nil => simp [runCycles]
    | cons c rest ih =>
        intro b hb
        simp only [runCycles, List.mem_append] at hb
        rcases hb with hb | hb
        · rw [runCycle_attempts, mem_gdprCompliantBookings] at hb
          exact hb.2.1
        · exact ih _ b hb
  · intro f submit w n1 n2 s
    rw [runCycle_attempts, runCycle_attempts]

/-- Witness for C2 at a concrete cycle: `bookingA` is submitted by `tickA`
against cutoff 5, and the theorem yields `5 < bookingA.created_at`. -/
theorem cutoff_bookings_never_submitted_witness :
    bookingA ∈ (runCycles 5 [tickA] initState).2 ∧ (5 : Int) < bookingA.created_at :=
  ⟨by decide,
   (cutoff_bookings_never_submitted 5 [tickA] initState).1 bookingA (by decide)⟩

/-- C3: with booking ids unique in the fetched list (the data model calls
ids unique), one cycle attempts exactly the eligible bookings — a
submission failure never aborts the rest of the loop; the resulting
in-memory processed set is the old set plus exactly the id strings of the
bookings whose submission succeeded (added iff success); a succeeded
booking's id is in the set and that booking is never attempted again in any
later sequence of cycles; a failed booking's id is absent from the set, and
if the same booking is fetched again next cycle it is eligible again
(retry). -/
theorem submit_success_recording (fetchResult : Except String (Option (List Booking)))
    (submit : Booking → Bool) (writeOk : String → Bool) (now cutoff : Int)
    (st : SyncState)
    (hnodup : ((getNewBookings fetchResult).map Booking.idString).Nodup) :
    ((runCycle fetchResult submit writeOk now cutoff st).2
        = gdprCompliantBookings (getNewBookings fetchResult) st.processedBookingIds cutoff)
    ∧ (∀ a : String,
        a ∈ (runCycle fetchResult submit writeOk now cutoff st).1.processedBookingIds ↔
          a ∈ st.processedBookingIds ∨
            ∃ b, b ∈ gdprCompliantBookings (getNewBookings fetchResult)
                  st.processedBookingIds cutoff ∧ submit b = true ∧ a = b.idString)
    ∧ (∀ b, b ∈ gdprCompliantBookings (getNewBookings fetchResult)
          st.processedBookingIds cutoff → submit b = true →
        b.idString ∈ (runCycle fetchResult submit writeOk now cutoff st).1.processedBookingIds)
    ∧ (∀ b, b ∈ gdprCompliantBookings (getNewBookings fetchResult)
          st.processedBookingIds cutoff → submit b = false →
        b.idString ∉ (runCycle fetchResult submit writeOk now cutoff st).1.processedBookingIds)
    ∧ (∀ b, b ∈ gdprCompliantBookings (getNewBookings fetchResult)
          st.processedBookingIds cutoff → submit b = true → ∀ inputs : List CycleInput,
        b ∉ (runCycles cutoff inputs (runCycle fetchResult submit writeOk now cutoff st).1).2)
    ∧ (∀ b, b ∈ gdprCompliantBookings (getNewBookings fetchResult)
          st.processedBookingIds cutoff → submit b = false →
        ∀ allBookings2 : List Booking, b ∈ allBookings2 →
          b ∈ gdprCompliantBookings allBookings2
            (runCycle fetchResult submit writeOk now cutoff st).1.processedBookingIds
            cutoff) := by
  have hmem := mem_runCycle_processed fetchResult submit writeOk now cutoff st
  have hsucc : ∀ b, b ∈ gdprCompliantBookings (getNewBookings fetchResult)
      st.processedBookingIds cutoff → submit b = true →
      b.idString ∈ (runCycle fetchResult submit writeOk now cutoff st).1.processedBookingIds :=
    fun b hb hs => (hmem b.idString).mpr (Or.inr ⟨b, hb, hs, rfl⟩)
  have hfail : ∀ b, b ∈ gdprCompliantBookings (getNewBookings fetchResult)
      st.processedBookingIds cutoff → submit b = false →
      b.idString ∉ (runCycle fetchResult submit writeOk now cutoff st).1.processedBookingIds := by
    intro b hb hs hin
    rcases (hmem b.idString).mp hin with hold | ⟨b', hb', hs', heq⟩
    · exact ((mem_gdprCompliantBookings _ _ _ b).mp hb).2.2 hold
    · have hbAll := ((mem_gdprCompliantBookings _ _ _ b).mp hb).1
      have hbAll' := ((mem_gdprCompliantBookings _ _ _ b').mp hb').1
      have : b = b' := nodup_idString_inj _ hnodup b b' hbAll hbAll' heq
      rw [← this] at hs'
      rw [hs] at hs'
      cases hs'
  refine ⟨runCycle_attempts fetchResult submit writeOk now cutoff st, hmem, hsucc, hfail,
    ?_, ?_⟩
  · intro b hb hs inputs
    exact processed_never_attempted cutoff inputs _ b (hsucc b hb hs)
  · intro b hb hs allBookings2 hb2
    rw [mem_gdprCompliantBookings]
    exact ⟨hb2, ((mem_gdprCompliantBookings _ _ _ b).mp hb).2.1, hfail b hb hs⟩

/-- Witness for C3: against cutoff 5, the two-booking fetch makes both
bookings eligible and attempted; booking id 1 succeeds and "1" lands in the
processed set; booking id 2 fails and "2" stays out, so it is eligible
again on an identical fetch. -/
theorem submit_success_recording_witness :
    ((runCycle fetchBoth submitOnlyA allWritesOk 99 5 initState).2
        = [bookingA, bookingC])
    ∧ bookingA.idString ∈
        (runCycle fetchBoth submitOnlyA allWritesOk 99 5 initState).1.processedBookingIds
    ∧ bookingC.idString ∉
        (runCycle fetchBoth submitOnlyA allWritesOk 99 5 initState).1.processedBookingIds
    ∧ bookingC ∈ gdprCompliantBookings [bookingA, bookingC]
        (runCycle fetchBoth submitOnlyA allWritesOk 99 5 initState).1.processedBookingIds
        5 := by
  have h := submit_success_recording fetchBoth submitOnlyA allWritesOk 99 5 initState
    (by decide)
  refine ⟨h.1.trans (by decide), ?_, ?_, ?_⟩
  · exact h.2.2.1 bookingA (by decide) (by decide)
  · exact h.2.2.2.1 bookingC (by decide) (by decide)
  · exact h.2.2.2.2.2 bookingC (by decide) (by decide) [bookingA, bookingC] (by decide)

/-- C4: Processed-Set Store round trip.  Loading a store file holding a
duplicate-free identifier list `S` (a set of identifiers) yields exactly
`S`; and loading the store file that `saveProcessedBooking` just rewrote
(its write succeeding) yields exactly the in-memory processed set it
saved. -/
theorem store_roundtrip (S : List String) (hS : S.Nodup) (st : SyncState)
    (bookingId : Nat) (hst : st.processedBookingIds.Nodup) :
    loadProcessedBookings (StoreFile.valid S) = S
    ∧ loadProcessedBookings (saveProcessedBooking st bookingId true).storeFile
        = (saveProcessedBooking st bookingId true).processedBookingIds := by
  constructor
  · simpa [loadProcessedBookings] using setFromList_of_nodup S hS
  · show loadProcessedBookings
        (StoreFile.valid (SetAdd st.processedBookingIds (toString bookingId)))
      = SetAdd st.processedBookingIds (toString bookingId)
    simpa [loadProcessedBookings] using
      setFromList_of_nodup _ (SetAdd_nodup hst (toString bookingId))

/-- Witness for C4: the concrete set `["1", "2"]` round-trips, and a save
of booking 7 from the startup state reads back as what was saved. -/
theorem store_roundtrip_witness :
    loadProcessedBookings (StoreFile.valid ["1", "2"]) = ["1", "2"]
    ∧ loadProcessedBookings (saveProcessedBooking initState 7 true).storeFile
        = (saveProcessedBooking initState 7 true).processedBookingIds :=
  store_roundtrip ["1", "2"] (by decide) initState 7 (by decide)

/-- C5: `getNewBookings` maps any thrown transport or API error to the
empty list instead of propagating it (it is a total function), and a cycle
whose fetch failed — or returned no bookings — ends with zero submissions
and a completely unchanged state (processed set, store file and
`lastCheckTime` alike). -/
theorem fetch_failure_yields_no_candidates (e : String) (submit : Booking → Bool)
    (writeOk : String → Bool) (now cutoff : Int) (st : SyncState) :
    getNewBookings (Except.error e) = []
    ∧ runCycle (Except.error e) submit writeOk now cutoff st = (st, [])
    ∧ runCycle (Except.ok (some [])) submit writeOk now cutoff st = (st, []) :=
  ⟨rfl, rfl, rfl⟩

/-- C6: the fallback submitter makes at least one and at most two external
attempts per call; the fallback path runs exactly when the primary call
threw; when both throw it returns false after two attempts without
propagating; a primary response with a status other than 200/201 yields
false after the single primary attempt; and the browser-automation
submitter returns false (rather than throwing) when automation throws or
the submit button is missing. -/
theorem submitter_attempt_contract :
    (∀ p f : Except String Nat, 1 ≤ (subscribeToSubstackFallback p f).2
        ∧ (subscribeToSubstackFallback p f).2 ≤ 2)
    ∧ (∀ p f : Except String Nat,
        ((subscribeToSubstackFallback p f).2 = 2 ↔ ∃ e, p = Except.error e))
    ∧ (∀ e1 e2 : String,
        subscribeToSubstackFallback (Except.error e1) (Except.error e2) = (false, 2))
    ∧ (∀ (s : Nat) (f : Except String Nat), s ≠ 200 → s ≠ 201 →
        subscribeToSubstackFallback (Except.ok s) f = (false, 1))
    ∧ (∀ msg, subscribeToSubstack (BrowserRun.thrown msg) = false)
    ∧ subscribeToSubstack BrowserRun.noSubmitButton = false := by
  refine ⟨?_, ?_, ?_, ?_, fun _ => rfl, rfl⟩
  · intro p f
    cases p with
    | ok s => exact ⟨le_refl 1, Nat.le_succ 1⟩
    | error e =>
        cases f with
        | ok s => exact ⟨Nat.le_succ 1, le_refl 2⟩
        | error e2 => exact ⟨Nat.le_succ 1, le_refl 2⟩
  · intro p f
    cases p with
    | ok s =>
        cases f <;> simp [subscribeToSubstackFallback]
    | error e =>
        cases f <;> simp [subscribeToSubstackFallback]
  · intro e1 e2
    rfl
  · intro s f h200 h201
    unfold subscribeToSubstackFallback
    simp [h200, h201]

/-- Witness for C6: a resolved primary response with status 500 yields
false after exactly one attempt and no fallback. -/
theorem submitter_attempt_contract_witness :
    subscribeToSubstackFallback (Except.ok 500) (Except.error "boom") = (false, 1) :=
  submitter_attempt_contract.2.2.2.1 500 (Except.error "boom") (by decide) (by decide)

/-- C7: `loadProcessedBookings` fails open — a missing store file and a
corrupt (unparseable) store file both load as the empty set; being a total
function, no exception escapes to the caller. -/
theorem load_fails_open (raw : String) :
    loadProcessedBookings StoreFile.missing = []
    ∧ loadProcessedBookings (StoreFile.corrupt raw) = [] :=
  ⟨rfl, rfl⟩

/-- C8 counterexample: a cycle whose fetch returns no bookings completes
without touching `lastCheckTime` — here the clock at cycle end is 5 but the
state keeps its old value 0, refuting the claim that `lastCheckTime` is
updated at the end of every completed cycle including empty-fetch ones. -/
theorem lastCheckTime_skipped_on_empty_fetch :
    (runCycle (Except.ok (some [])) (fun _ => true) (fun _ => true) 5 0
        initState).1.lastCheckTime = initState.lastCheckTime
    ∧ initState.lastCheckTime ≠ 5 := by
  decide

/-- C8 as amended: whenever a cycle reaches the processing loop (the
eligible set is nonempty), `lastCheckTime` is set to the cycle-end clock
regardless of the per-item submission or write outcomes; cycles returning
early on an empty fetch or empty eligible set leave it unchanged. -/
theorem lastCheckTime_updated_when_loop_runs
    (fetchResult : Except String (Option (List Booking))) (submit : Booking → Bool)
    (writeOk : String → Bool) (now cutoff : Int) (st : SyncState)
    (h : gdprCompliantBookings (getNewBookings fetchResult) st.processedBookingIds cutoff
        ≠ []) :
    (runCycle fetchResult submit writeOk now cutoff st).1.lastCheckTime = now := by
  have hAll : getNewBookings fetchResult ≠ [] := by
    intro hc
    exact h (by simp [hc, gdprCompliantBookings])
  rw [runCycle]
  dsimp only
  rw [if_neg (by simpa [List.length_eq_zero] using hAll),
    if_neg (by simpa [List.length_eq_zero] using h)]

/-- Witness for C8: with the concrete two-booking fetch the eligible set is
nonempty and the theorem yields `lastCheckTime = 99` after the cycle. -/
theorem lastCheckTime_updated_when_loop_runs_witness :
    gdprCompliantBookings (getNewBookings fetchBoth) initState.processedBookingIds 5 ≠ []
    ∧ (runCycle fetchBoth submitOnlyA allWritesOk 99 5 initState).1.lastCheckTime = 99 :=
  ⟨by decide,
   lastCheckTime_updated_when_loop_runs fetchBoth submitOnlyA allWritesOk 99 5 initState
     (by decide)⟩

/-- C9: when the durable write inside `saveProcessedBooking` fails, the id
has nonetheless been added to the in-memory processed set (the error is
caught and only logged), the store file is left unchanged, and any booking
carrying that id is excluded from every later eligibility filter run
against the mutated set — it is never retried for the rest of the process
lifetime even though the success was not persisted. -/
theorem write_failure_still_marks_processed (st : SyncState) (bookingId : Nat)
    (bookings : List Booking) (cutoff : Int) (b : Booking) (hid : b.id = bookingId) :
    (saveProcessedBooking st bookingId false).processedBookingIds
        = SetAdd st.processedBookingIds (toString bookingId)
    ∧ toString bookingId ∈ (saveProcessedBooking st bookingId false).processedBookingIds
    ∧ (saveProcessedBooking st bookingId false).storeFile = st.storeFile
    ∧ b ∉ gdprCompliantBookings bookings
        (saveProcessedBooking st bookingId false).processedBookingIds cutoff := by
  refine ⟨rfl, ?_, rfl, ?_⟩
  · rw [saveProcessedBooking_processedBookingIds, mem_SetAdd]
    exact Or.inr rfl
  · rw [mem_gdprCompliantBookings]
    rintro ⟨-, -, hnot⟩
    apply hnot
    rw [saveProcessedBooking_processedBookingIds, mem_SetAdd]
    exact Or.inr (by simp [Booking.idString, hid])

/-- Witness for C9: a failed write for booking id 1 still records "1" in
memory, and `bookingA` (id 1) is no longer eligible afterwards. -/
theorem write_failure_still_marks_processed_witness :
    toString (1 : Nat) ∈ (saveProcessedBooking initState 1 false).processedBookingIds
    ∧ bookingA ∉ gdprCompliantBookings [bookingA]
        (saveProcessedBooking initState 1 false).processedBookingIds 5 := by
  have h := write_failure_still_marks_processed initState 1 [bookingA] 5 bookingA (by decide)
  exact ⟨h.2.1, h.2.2.2⟩

/-- C10: a successful API response whose body lacks a `data` field (null or
undefined) makes `getNewBookings` return the empty list — not undefined and
not a thrown error — and the cycle then behaves exactly as if zero
candidates were fetched: no submissions and an unchanged state. -/
theorem missing_data_field_safe (submit : Booking → Bool) (writeOk : String → Bool)
    (now cutoff : Int) (st : SyncState) :
    getNewBookings (Except.ok none) = []
    ∧ runCycle (Except.ok none) submit writeOk now cutoff st
        = runCycle (Except.ok (some [])) submit writeOk now cutoff st
    ∧ runCycle (Except.ok none) submit writeOk now cutoff st = (st, []) :=
  ⟨rfl, rfl, rfl⟩

end TidycalSync
